import Mathlib

/-!
Shallow embedding of the drag-selection widget in `src/selector.ts`.

Coordinates are modelled as integers (the code computes with JS numbers;
every operation the claims depend on is a comparison, a min/max choice, a
subtraction or a squaring, all of which the integers carry exactly).

DOM state that the class mutates (the selection `<div>`, the CSS classes on
selectable elements, registered listeners) is modelled explicitly as fields
of the `Selector` state record, and the user-supplied callbacks are modelled
by flags recording whether they are configured and whether they raise; a
gesture end therefore returns, next to the new state, a `GestureOutput`
record of which callbacks were invoked and whether an error propagates.
-/

namespace SelectorModel

/-- Model of the `Point` type of `selector.ts`. -/
structure Point where
  x : ℤ
  y : ℤ
deriving Repr, DecidableEq

/-- Model of the `SelectionRectangle` type of `selector.ts`; the same shape is
used for `DOMRect` results of `getBoundingClientRect`, of which only the
`top`/`left`/`right`/`bottom` fields are read by the code. -/
structure SelectionRectangle where
  top : ℤ
  left : ℤ
  right : ℤ
  bottom : ℤ
deriving Repr, DecidableEq

/-- Model of the `SelectionMode` enum. -/
inductive SelectionMode where
  | PARTIAL_COVER
  | FULL_COVER
deriving Repr, DecidableEq

/-- Model of the `SelectionMarkMode` enum. -/
inductive SelectionMarkMode where
  | ADD
  | REMOVE
deriving Repr, DecidableEq

/-- The function `limitToRange(from, to, value)` of `selector.ts` (`from`/`to`
are renamed `lo`/`hi` because `from` and `to` are Lean keywords). -/
def limitToRange (lo hi value : ℤ) : ℤ :=
  if hi ≤ value then
    hi
  else if value ≤ lo then
    lo
  else
    value

/-- The function `doOverlap(selectionRect, elementRect)` of `selector.ts`. -/
def doOverlap (selectionRect elementRect : SelectionRectangle) : Bool :=
  -- if element has area 0, no overlap
  if elementRect.right = elementRect.left ∨ elementRect.top = elementRect.bottom then
    false
  -- if one rectangle is on left side of other
  else if elementRect.right < selectionRect.left ∨ selectionRect.right < elementRect.left then
    false
  -- if one rectangle is above other
  else if selectionRect.bottom < elementRect.top ∨ elementRect.bottom < selectionRect.top then
    false
  else
    true

/-- The function `covers(selectionRect, elementRect)` of `selector.ts`. -/
def covers (selectionRect elementRect : SelectionRectangle) : Bool :=
  -- if element has area 0, no overlap
  if elementRect.right = elementRect.left ∨ elementRect.top = elementRect.bottom then
    false
  else
    -- elementRect is within or matching selectionRect
    decide (selectionRect.left ≤ elementRect.left ∧
      elementRect.right ≤ selectionRect.right ∧
      selectionRect.top ≤ elementRect.top ∧
      elementRect.bottom ≤ selectionRect.bottom)

/-- A selectable DOM element: its bounding rectangle together with whether its
`classList` currently holds the add-mark class resp. the remove-mark class
(the two configured class names are distinct, as with the defaults
`mark_add_selected` and `mark_remove_selected`). -/
structure SelectableElement where
  rect : SelectionRectangle
  hasMarkAddSelectedClass : Bool
  hasMarkRemoveSelectedClass : Bool
deriving Repr, DecidableEq

/-- The observable state of one `Selector` instance together with the DOM it
manipulates. Configuration fields (`selectionMode`, `selectionMarkMode`,
`clickThreshold`, callback flags) come first; then the instance fields
`isMounted`, `selectionStarted`, `isStillClick`, `selectionStartPoint`,
`selectionRectangle`; then the modelled DOM: the bounding rectangle of the
selectable root, the selectable elements (rectangle plus mark classes), the
visibility of the selection `<div>`, how many selection `<div>` nodes exist,
and how many event listeners are registered. -/
structure Selector where
  selectionMode : SelectionMode
  selectionMarkMode : SelectionMarkMode
  clickThreshold : ℤ
  hasOnClickCallback : Bool
  onSelectedCallbackRaises : Bool
  onClickCallbackRaises : Bool
  isMounted : Bool
  selectionStarted : Bool
  isStillClick : Bool
  selectionStartPoint : Point
  selectionRectangle : SelectionRectangle
  selectableRootRect : SelectionRectangle
  selectableElements : List SelectableElement
  selectionRectVisible : Bool
  selectionRectNodeCount : Nat
  listenerCount : Nat
deriving Repr, DecidableEq

/-- Which callbacks a gesture end invoked, with which arguments, and whether a
callback raised an error that propagates out of the handler. -/
structure GestureOutput where
  clickInvoked : Option SelectableElement
  selectedInvoked : Option (List SelectableElement × SelectionMarkMode)
  raised : Bool
deriving Repr, DecidableEq

/-- Method `getSelectionMarkMode` of `selector.ts`. -/
def getSelectionMarkMode (s : Selector) : SelectionMarkMode :=
  s.selectionMarkMode

/-- Method `setSelectionMarkMode` of `selector.ts`. -/
def setSelectionMarkMode (s : Selector) (selectionMarkMode : SelectionMarkMode) : Selector :=
  { s with selectionMarkMode := selectionMarkMode }

/-- Method `getSelectableElements` of `selector.ts` (queries the DOM for the
currently selectable elements). -/
def getSelectableElements (s : Selector) : List SelectableElement :=
  s.selectableElements

/-- Method `isSelectedBySelectionRectangle` of `selector.ts`. -/
def isSelectedBySelectionRectangle (s : Selector) (element : SelectableElement) : Bool :=
  if s.selectionMode = SelectionMode.PARTIAL_COVER then
    doOverlap s.selectionRectangle element.rect
  else
    covers s.selectionRectangle element.rect

/-- Method `isClicked` of `selector.ts`. -/
def isClicked (s : Selector) (element : SelectableElement) : Bool :=
  doOverlap s.selectionRectangle element.rect

/-- Method `getSelectedElements` of `selector.ts`. -/
def getSelectedElements (s : Selector) : List SelectableElement :=
  (getSelectableElements s).filter (fun element => isSelectedBySelectionRectangle s element)

/-- Method `showSelectionRectangle` of `selector.ts`: positions the selection
`<div>` over the rectangle and raises its opacity (modelled as visibility). -/
def showSelectionRectangle (s : Selector) : Selector :=
  { s with selectionRectVisible := true }

/-- Method `hideSelectionRectangle` of `selector.ts`: zeroes the `<div>` style
and sets opacity 0 (modelled as visibility). -/
def hideSelectionRectangle (s : Selector) : Selector :=
  { s with selectionRectVisible := false }

/-- Method `createSelectionRect` of `selector.ts`: appends the selection
`<div>` node to the document body. -/
def createSelectionRect (s : Selector) : Selector :=
  { s with selectionRectNodeCount := s.selectionRectNodeCount + 1 }

/-- Method `removeSelectionRect` of `selector.ts`: removes the selection
`<div>` node if present (`?.remove()`), a no-op when absent. -/
def removeSelectionRect (s : Selector) : Selector :=
  { s with selectionRectNodeCount := s.selectionRectNodeCount - 1 }

/-- Method `resetSelectionRectangle` of `selector.ts`. -/
def resetSelectionRectangle (s : Selector) : Selector :=
  { s with selectionRectangle := { top := 0, left := 0, right := 0, bottom := 0 } }

/-- Method `unmarkSelected` of `selector.ts`: `classList.remove` of both mark
classes on one element. -/
def unmarkSelected (element : SelectableElement) : SelectableElement :=
  { element with hasMarkAddSelectedClass := false, hasMarkRemoveSelectedClass := false }

/-- Method `markSelected` of `selector.ts`: adds the mark class of the current
`selectionMarkMode` to one element. -/
def markSelected (s : Selector) (element : SelectableElement) : SelectableElement :=
  if s.selectionMarkMode = SelectionMarkMode.ADD then
    { element with hasMarkAddSelectedClass := true }
  else
    { element with hasMarkRemoveSelectedClass := true }

/-- Method `unmarkSelectedElements` of `selector.ts`: removes both mark classes
from every selectable element. -/
def unmarkSelectedElements (s : Selector) : Selector :=
  { s with selectableElements := (getSelectableElements s).map unmarkSelected }

/-- Method `markSelectedElements` of `selector.ts`: first unmark all selectable
elements, then add the current mark class to the selected ones (marking
mutates the just-unmarked DOM elements in place, hence the map over the
unmarked list; membership in `getSelectedElements` only reads rectangles,
which unmarking does not change). -/
def markSelectedElements (s : Selector) : Selector :=
  let s1 := unmarkSelectedElements s
  { s1 with selectableElements := s1.selectableElements.map (fun element =>
      if isSelectedBySelectionRectangle s1 element then markSelected s1 element else element) }

/-- Method `computeSelectionRectangle` of `selector.ts`: clamps the event
location into the bounding rectangle of the selectable root and spans the
rectangle between the clamped location and the (unclamped) start point. -/
def computeSelectionRectangle (s : Selector) (eventLocation : Point) : SelectionRectangle :=
  let selectableRect := s.selectableRootRect
  let x := limitToRange selectableRect.left selectableRect.right eventLocation.x
  let y := limitToRange selectableRect.top selectableRect.bottom eventLocation.y
  { -- mouse / touch is LEFT of starting point
    left := if x < s.selectionStartPoint.x then x else s.selectionStartPoint.x
    right := if x < s.selectionStartPoint.x then s.selectionStartPoint.x else x
    -- mouse / touch is BELOW starting point
    top := if y > s.selectionStartPoint.y then s.selectionStartPoint.y else y
    bottom := if y > s.selectionStartPoint.y then y else s.selectionStartPoint.y }

/-- The `Math.abs` function used by `isInClickRange`. -/
def mathAbs (value : ℤ) : ℤ :=
  if value < 0 then -value else value

/-- Method `isInClickRange` of `selector.ts`. The source compares the
threshold with `Math.sqrt(width*width + height*height)`; over the ordered
field this comparison `t < sqrt(w*w + h*h)` holds exactly when `t < 0` or
`t*t < w*w + h*h`, which is how the square root is eliminated here. -/
def isInClickRange (s : Selector) : Bool :=
  let width := mathAbs (s.selectionRectangle.right - s.selectionRectangle.left)
  if s.clickThreshold < width then
    false
  else
    let height := mathAbs (s.selectionRectangle.bottom - s.selectionRectangle.top)
    if s.clickThreshold < height then
      false
    else
      if s.clickThreshold < 0 ∨
          s.clickThreshold * s.clickThreshold < width * width + height * height then
        false
      else
        true

/-- Method `startSelection` of `selector.ts`. -/
def startSelection (s : Selector) (eventLocation : Point) : Selector :=
  { s with
    selectionStarted := true
    isStillClick := true
    selectionStartPoint := { x := eventLocation.x, y := eventLocation.y }
    selectionRectangle :=
      { right := eventLocation.x
        left := eventLocation.x
        top := eventLocation.y
        bottom := eventLocation.y } }

/-- Method `onMove` of `selector.ts`: ignored unless a selection is active;
otherwise recompute the rectangle, show it, re-evaluate the click range when
the gesture is still a click, and re-mark the selected elements. -/
def onMove (s : Selector) (eventLocation : Point) : Selector :=
  -- ignore event when user didn't start dragging yet
  if s.selectionStarted then
    let s1 := { s with selectionRectangle := computeSelectionRectangle s eventLocation }
    let s2 := showSelectionRectangle s1
    -- maybe the user moved too far, then we don't want to consider it still
    -- as a click when the user shrinks the area again
    let s3 :=
      if s2.isStillClick then
        { s2 with isStillClick := isInClickRange s2 }
      else
        s2
    markSelectedElements s3
  else
    s

/-- Method `handleSelected` of `selector.ts`: when the gesture is still a
click and a click callback is configured and exactly one selectable element
passes `isClicked`, the click callback is invoked on it and the method
returns; otherwise the selection callback is invoked with the elements
selected by the rectangle and the current mark mode. -/
def handleSelected (s : Selector) : GestureOutput :=
  let selectableElements := getSelectableElements s
  let clickHandled : Option GestureOutput :=
    if s.isStillClick && s.hasOnClickCallback then
      let selectedElements := selectableElements.filter (fun element => isClicked s element)
      if selectedElements.length = 1 then
        some
          { clickInvoked := selectedElements.head?
            selectedInvoked := none
            raised := s.onClickCallbackRaises }
      else
        none
    else
      none
  match clickHandled with
  | some out => out
  | none =>
      let selectedElements :=
        selectableElements.filter (fun element => isSelectedBySelectionRectangle s element)
      { clickInvoked := none
        selectedInvoked := some (selectedElements, s.selectionMarkMode)
        raised := s.onSelectedCallbackRaises }

/-- Method `cleanupSelection` of `selector.ts`: hide the rectangle, reset its
coordinates, remove all marks. It does NOT touch `selectionStarted`. -/
def cleanupSelection (s : Selector) : Selector :=
  unmarkSelectedElements (resetSelectionRectangle (hideSelectionRectangle s))

/-- Method `endSelection` of `selector.ts`: when a selection is active, clear
`selectionStarted`, then run `handleSelected` inside a `try`/`finally` whose
`finally` block runs `cleanupSelection`; the cleanup is therefore applied to
the state whether or not a callback raises, and a raise is recorded in the
returned `GestureOutput`. -/
def endSelection (s : Selector) : Selector × GestureOutput :=
  if s.selectionStarted then
    let s1 := { s with selectionStarted := false }
    -- fail safe since we execute user provided functions
    let out := handleSelected s1
    (cleanupSelection s1, out)
  else
    (s, { clickInvoked := none, selectedInvoked := none, raised := false })

/-- Method `onTouchCancel` of `selector.ts`: it only calls
`cleanupSelection`. -/
def onTouchCancel (s : Selector) : Selector :=
  cleanupSelection s

/-- Method `mount` of `selector.ts`: when not yet mounted, create and hide the
selection `<div>` and register the seven event listeners (`mouseup`,
`mousemove`, `mousedown`, `touchend`, `touchcancel`, `touchmove`,
`touchstart`); a no-op when already mounted. -/
def mount (s : Selector) : Selector :=
  if s.isMounted then
    s
  else
    let s1 := hideSelectionRectangle (createSelectionRect s)
    let s2 := { s1 with listenerCount := s1.listenerCount + 7 }
    { s2 with isMounted := true }

/-- Method `unmount` of `selector.ts`: when mounted, hide the rectangle,
deregister the seven listeners and remove the `<div>` node; a no-op when not
mounted. -/
def unmount (s : Selector) : Selector :=
  if s.isMounted then
    let s1 := hideSelectionRectangle s
    let s2 := { s1 with listenerCount := s1.listenerCount - 7 }
    let s3 := removeSelectionRect s2
    { s3 with isMounted := false }
  else
    s

/-- The gesture events the claims range over. `start` models
`onMouseDown`/`onTouchStart`, `move` models `onMouseMove`/`onTouchMove`,
`release` models `onMouseUp`/`onTouchEnd`, `cancel` models `onTouchCancel`,
and `setMarkMode` models a caller invoking `setSelectionMarkMode`. -/
inductive GestureEvent where
  | start (p : Point)
  | move (p : Point)
  | release
  | cancel
  | setMarkMode (m : SelectionMarkMode)
deriving Repr, DecidableEq

/-- One step of the gesture state machine, dispatching an event to the
corresponding handler of `selector.ts`. -/
def step (s : Selector) : GestureEvent → Selector
  | GestureEvent.start p => startSelection s p
  | GestureEvent.move p => onMove s p
  | GestureEvent.release => (endSelection s).1
  | GestureEvent.cancel => onTouchCancel s
  | GestureEvent.setMarkMode m => setSelectionMarkMode s m

/-- Run a sequence of gesture events. -/
def run (s : Selector) (events : List GestureEvent) : Selector :=
  events.foldl step s

/-- The state of a freshly constructed `Selector` instance: the class field
initializers of `selector.ts` set `isMounted = false`,
`selectionStarted = false`, `isStillClick = true`, a zero
`selectionStartPoint` and a zero `selectionRectangle`. Configuration and the
modelled DOM (root rectangle, selectable elements) are parameters; no
selection `<div>` exists and no listeners are registered before `mount`. -/
def initialState (selectionMode : SelectionMode) (selectionMarkMode : SelectionMarkMode)
    (clickThreshold : ℤ)
    (hasOnClickCallback onSelectedCallbackRaises onClickCallbackRaises : Bool)
    (selectableRootRect : SelectionRectangle)
    (selectableElements : List SelectableElement) : Selector :=
  { selectionMode := selectionMode
    selectionMarkMode := selectionMarkMode
    clickThreshold := clickThreshold
    hasOnClickCallback := hasOnClickCallback
    onSelectedCallbackRaises := onSelectedCallbackRaises
    onClickCallbackRaises := onClickCallbackRaises
    isMounted := false
    selectionStarted := false
    isStillClick := true
    selectionStartPoint := { x := 0, y := 0 }
    selectionRectangle := { top := 0, left := 0, right := 0, bottom := 0 }
    selectableRootRect := selectableRootRect
    selectableElements := selectableElements
    selectionRectVisible := false
    selectionRectNodeCount := 0
    listenerCount := 0 }

/-- Containment of a point in a rectangle, with the inclusive bounds of the
rectangle types above. Modelled from the spec: used only to state the spec's
click-candidate criterion (an element that contains the start point and the
release point), for comparison with the `isClicked` test of the source. -/
def containsPoint (rect : SelectionRectangle) (p : Point) : Bool :=
  decide (rect.left ≤ p.x ∧ p.x ≤ rect.right ∧ rect.top ≤ p.y ∧ p.y ≤ rect.bottom)

/-- Sample bounding-root rectangle shared by the concrete witnesses. -/
def sampleRoot : SelectionRectangle :=
  { top := 0, left := 0, right := 100, bottom := 100 }

/-- Sample unmarked selectable element shared by the concrete witnesses. -/
def sampleElement : SelectableElement :=
  { rect := { top := 10, left := 10, right := 20, bottom := 20 }
    hasMarkAddSelectedClass := false
    hasMarkRemoveSelectedClass := false }

/-!
Claim C1. The code's degenerate guard in both `doOverlap` and `covers` tests
only the ELEMENT rectangle, so a zero-width or zero-height selection
rectangle can still `doOverlap` a fat element; the claim fails there.
-/

/-- C1 counterexample: the claim says a selection rectangle of zero width
never matches under `doOverlap`, but the zero-width selection rectangle with
`left = right = 5` overlaps the element rectangle spanning 0..10 — the
degenerate guard of `doOverlap` only inspects the element rectangle. -/
theorem C1_counterexample :
    (({ top := 0, left := 5, right := 5, bottom := 10 } : SelectionRectangle).right =
      ({ top := 0, left := 5, right := 5, bottom := 10 } : SelectionRectangle).left)
    ∧ doOverlap { top := 0, left := 5, right := 5, bottom := 10 }
        { top := 0, left := 0, right := 10, bottom := 10 } = true := by
  decide

/-- C1 (amended): an element rectangle of zero width or zero height never
matches, under either predicate; a selection rectangle of zero width or zero
height still never satisfies `covers` against a well-formed element
rectangle, but it CAN satisfy `doOverlap` (the degenerate guard only
inspects the element rectangle). -/
theorem C1_degenerate_guard (S E : SelectionRectangle) :
    ((E.right = E.left ∨ E.top = E.bottom) →
      doOverlap S E = false ∧ covers S E = false)
    ∧ ((S.right = S.left ∨ S.top = S.bottom) →
      E.left ≤ E.right → E.top ≤ E.bottom → covers S E = false) := by
  constructor
  · intro h
    constructor
    · unfold doOverlap
      rw [if_pos h]
    · unfold covers
      rw [if_pos h]
  · intro hS hE1 hE2
    unfold covers
    split_ifs with hdeg
    · rfl
    · push_neg at hdeg
      simp only [decide_eq_false_iff_not]
      intro hc
      obtain ⟨h1, h2, h3, h4⟩ := hc
      rcases hS with h | h
      · exact hdeg.1 (by omega)
      · exact hdeg.2 (by omega)

/-- C1 witness: the amended theorem applied at concrete rectangles — a
degenerate element never matches, and a degenerate selection never `covers`
a well-formed element. -/
theorem C1_witness :
    (doOverlap { top := 0, left := 0, right := 10, bottom := 10 }
        { top := 0, left := 5, right := 5, bottom := 10 } = false
      ∧ covers { top := 0, left := 0, right := 10, bottom := 10 }
        { top := 0, left := 5, right := 5, bottom := 10 } = false)
    ∧ covers { top := 0, left := 5, right := 5, bottom := 10 }
        { top := 0, left := 0, right := 10, bottom := 10 } = false :=
  ⟨(C1_degenerate_guard { top := 0, left := 0, right := 10, bottom := 10 }
      { top := 0, left := 5, right := 5, bottom := 10 }).1 (Or.inl (by decide)),
    (C1_degenerate_guard { top := 0, left := 5, right := 5, bottom := 10 }
      { top := 0, left := 0, right := 10, bottom := 10 }).2 (Or.inl (by decide))
      (by decide) (by decide)⟩

/-!
Claim C3. Symmetry of `doOverlap` fails when exactly one of the two
rectangles is degenerate, again because the degenerate guard only inspects
the second (element) argument.
-/

/-- C3 counterexample: `doOverlap` is not symmetric — with the full square as
selection and the zero-width rectangle as element the guard fires, while
with the arguments swapped it does not. -/
theorem C3_counterexample :
    doOverlap { top := 0, left := 0, right := 10, bottom := 10 }
        { top := 0, left := 5, right := 5, bottom := 10 }
      ≠ doOverlap { top := 0, left := 5, right := 5, bottom := 10 }
        { top := 0, left := 0, right := 10, bottom := 10 } := by
  decide

/-- C3 (amended): `doOverlap` is symmetric on rectangles of nonzero width and
nonzero height; the asymmetric degenerate guard is the only source of
asymmetry. -/
theorem C3_doOverlap_symm (A B : SelectionRectangle)
    (hA1 : A.right ≠ A.left) (hA2 : A.top ≠ A.bottom)
    (hB1 : B.right ≠ B.left) (hB2 : B.top ≠ B.bottom) :
    doOverlap A B = doOverlap B A := by
  have hAB : doOverlap A B =
      if B.right < A.left ∨ A.right < B.left then false
      else if A.bottom < B.top ∨ B.bottom < A.top then false else true := by
    unfold doOverlap
    rw [if_neg (by tauto)]
  have hBA : doOverlap B A =
      if A.right < B.left ∨ B.right < A.left then false
      else if B.bottom < A.top ∨ A.bottom < B.top then false else true := by
    unfold doOverlap
    rw [if_neg (by tauto)]
  rw [hAB, hBA]
  exact if_congr or_comm rfl (if_congr or_comm rfl rfl)

/-- C3 witness: symmetry at two concrete non-degenerate rectangles. -/
theorem C3_witness :
    doOverlap { top := 0, left := 0, right := 10, bottom := 10 }
        { top := 5, left := 5, right := 8, bottom := 8 }
      = doOverlap { top := 5, left := 5, right := 8, bottom := 8 }
        { top := 0, left := 0, right := 10, bottom := 10 } :=
  C3_doOverlap_symm { top := 0, left := 0, right := 10, bottom := 10 }
    { top := 5, left := 5, right := 8, bottom := 8 }
    (by decide) (by decide) (by decide) (by decide)

/-!
Claim C9. `mount` and `unmount` both guard on `isMounted`, so a second
`mount` (resp. an `unmount` while not mounted) is a no-op on the whole
state, including the modelled DOM (listener registrations, selection `<div>`
node count); both are total functions, so neither errors.
-/

/-- C9: mounting while already mounted and unmounting while not mounted are
no-ops on the entire state (listener registrations and the selection
`<div>` node included). -/
theorem C9_mount_unmount_idempotent (s : Selector) :
    (s.isMounted = true → mount s = s) ∧ (s.isMounted = false → unmount s = s) := by
  constructor
  · intro h
    unfold mount
    rw [if_pos h]
  · intro h
    unfold unmount
    rw [if_neg (by simp [h])]

/-- C9 witness: a freshly constructed instance is not mounted, so `unmount`
leaves it unchanged; after one `mount` it is mounted, so a second `mount`
leaves that state unchanged. -/
theorem C9_witness :
    mount (mount (initialState SelectionMode.PARTIAL_COVER SelectionMarkMode.ADD 5 false
        false false sampleRoot [sampleElement]))
      = mount (initialState SelectionMode.PARTIAL_COVER SelectionMarkMode.ADD 5 false
        false false sampleRoot [sampleElement])
    ∧ unmount (initialState SelectionMode.PARTIAL_COVER SelectionMarkMode.ADD 5 false
        false false sampleRoot [sampleElement])
      = initialState SelectionMode.PARTIAL_COVER SelectionMarkMode.ADD 5 false
        false false sampleRoot [sampleElement] :=
  ⟨(C9_mount_unmount_idempotent (mount (initialState SelectionMode.PARTIAL_COVER
      SelectionMarkMode.ADD 5 false false false sampleRoot [sampleElement]))).1 (by decide),
    (C9_mount_unmount_idempotent (initialState SelectionMode.PARTIAL_COVER
      SelectionMarkMode.ADD 5 false false false sampleRoot [sampleElement])).2 (by decide)⟩

/-!
Shared helper lemmas about the state-machine functions.
-/

/-- Every element of the selectable list after `cleanupSelection` carries
neither mark class. -/
lemma cleanupSelection_unmarks (s : Selector) :
    ∀ e ∈ (cleanupSelection s).selectableElements,
      e.hasMarkAddSelectedClass = false ∧ e.hasMarkRemoveSelectedClass = false := by
  intro e he
  simp only [cleanupSelection, unmarkSelectedElements, resetSelectionRectangle,
    hideSelectionRectangle, getSelectableElements, List.mem_map] at he
  obtain ⟨a, -, rfl⟩ := he
  exact ⟨rfl, rfl⟩

/-- The selection rectangle computed on a move while a selection is active. -/
lemma onMove_selectionRectangle (s : Selector) (p : Point)
    (h : s.selectionStarted = true) :
    (onMove s p).selectionRectangle = computeSelectionRectangle s p := by
  unfold onMove
  rw [if_pos h]
  dsimp only
  split <;> rfl

/-- A move never changes the current mark mode. -/
lemma onMove_selectionMarkMode (s : Selector) (p : Point) :
    (onMove s p).selectionMarkMode = s.selectionMarkMode := by
  unfold onMove
  split
  · dsimp only
    split <;> rfl
  · rfl

/-- A move never changes `selectionStarted`. -/
lemma onMove_selectionStarted (s : Selector) (p : Point) :
    (onMove s p).selectionStarted = s.selectionStarted := by
  unfold onMove
  split
  · dsimp only
    split <;> rfl
  · rfl

/-- Once the still-a-click flag is off, a move never turns it back on: the
source only reassigns `isStillClick` inside `if (this.isStillClick)`. -/
lemma onMove_isStillClick_false (s : Selector) (p : Point)
    (h : s.isStillClick = false) :
    (onMove s p).isStillClick = false := by
  unfold onMove
  split
  · dsimp only
    rw [if_neg (by simp [showSelectionRectangle, h])]
    exact h
  · exact h

/-- Once the still-a-click flag is off, any sequence of moves keeps it off. -/
lemma moves_keep_isStillClick_false (ps : List Point) (s : Selector)
    (h : s.isStillClick = false) :
    (ps.foldl onMove s).isStillClick = false := by
  induction ps generalizing s with
  | nil => exact h
  | cons p ps ih => exact ih (onMove s p) (onMove_isStillClick_false s p h)

/-- After `markSelectedElements`, every element in the list carries at most
the class of the current mark mode. -/
lemma markSelectedElements_classes (s : Selector) :
    ∀ e ∈ (markSelectedElements s).selectableElements,
      (s.selectionMarkMode = SelectionMarkMode.ADD → e.hasMarkRemoveSelectedClass = false)
      ∧ (s.selectionMarkMode = SelectionMarkMode.REMOVE → e.hasMarkAddSelectedClass = false) := by
  intro e he
  simp only [markSelectedElements, unmarkSelectedElements, getSelectableElements,
    List.mem_map] at he
  obtain ⟨a, ⟨b, -, rfl⟩, rfl⟩ := he
  constructor
  · intro hm
    split
    · simp [markSelected, hm, unmarkSelected]
    · rfl
  · intro hm
    split
    · simp [markSelected, hm, unmarkSelected]
    · rfl

/-!
Claim C4. `endSelection` clears `selectionStarted`, then runs
`handleSelected` inside `try`/`finally` with `cleanupSelection` in the
`finally` block, so the cleanup is applied to the resulting state even when
a user callback raises (the raise flags of the state are unconstrained
below, so the theorem covers raising callbacks).
-/

/-- C4: at the end of an active gesture — including when the selection or
click callback raises, since the raise flags in `s` are arbitrary — the
selection rectangle is hidden and reset to the zero rectangle, all pending
marks are removed from all selectable elements, and the gesture state is
back to not-started. -/
theorem C4_cleanup_always_runs (s : Selector) (h : s.selectionStarted = true) :
    (endSelection s).1.selectionRectVisible = false
    ∧ (endSelection s).1.selectionRectangle = { top := 0, left := 0, right := 0, bottom := 0 }
    ∧ (∀ e ∈ (endSelection s).1.selectableElements,
        e.hasMarkAddSelectedClass = false ∧ e.hasMarkRemoveSelectedClass = false)
    ∧ (endSelection s).1.selectionStarted = false := by
  have hend : (endSelection s).1 = cleanupSelection { s with selectionStarted := false } := by
    unfold endSelection
    rw [if_pos h]
  rw [hend]
  exact ⟨rfl, rfl, cleanupSelection_unmarks _, rfl⟩

/-- Concrete active gesture whose selection callback raises, used by the C4
witness. -/
def raisingGestureState : Selector :=
  startSelection (initialState SelectionMode.PARTIAL_COVER SelectionMarkMode.ADD 5 false
    true false sampleRoot [sampleElement]) { x := 0, y := 0 }

/-- C4 witness: a concrete active gesture whose selection callback raises;
the error propagates, and the cleanup facts hold at the resulting state. -/
theorem C4_witness :
    raisingGestureState.selectionStarted = true
    ∧ (endSelection raisingGestureState).2.raised = true
    ∧ ((endSelection raisingGestureState).1.selectionRectVisible = false
      ∧ (endSelection raisingGestureState).1.selectionRectangle
        = { top := 0, left := 0, right := 0, bottom := 0 }
      ∧ (∀ e ∈ (endSelection raisingGestureState).1.selectableElements,
          e.hasMarkAddSelectedClass = false ∧ e.hasMarkRemoveSelectedClass = false)
      ∧ (endSelection raisingGestureState).1.selectionStarted = false) :=
  ⟨rfl, by decide, C4_cleanup_always_runs raisingGestureState rfl⟩

/-!
Claim C10. `markSelectedElements` (run on every active move) first strips
both mark classes from every selectable element and only then applies the
class of the current mode to the matching ones, so no element can keep the
class of the non-current mode across a move — also after a mid-gesture
`setSelectionMarkMode`.
-/

/-- C10: after any move during an active gesture, no selectable element
carries the mark class of the non-current mode. -/
theorem C10_no_stale_mark_class (s : Selector) (p : Point)
    (h : s.selectionStarted = true) :
    ∀ e ∈ (onMove s p).selectableElements,
      (s.selectionMarkMode = SelectionMarkMode.ADD → e.hasMarkRemoveSelectedClass = false)
      ∧ (s.selectionMarkMode = SelectionMarkMode.REMOVE → e.hasMarkAddSelectedClass = false) := by
  intro e he
  rw [onMove, if_pos h] at he
  dsimp only at he
  revert he
  split
  · intro he
    have hcl := markSelectedElements_classes _ e he
    exact hcl
  · intro he
    have hcl := markSelectedElements_classes _ e he
    exact hcl

/-- C10 witness: a concrete move in REMOVE mode (set mid-gesture) leaves no
element with the add-mark class. -/
theorem C10_witness :
    (setSelectionMarkMode (startSelection (initialState SelectionMode.PARTIAL_COVER
        SelectionMarkMode.ADD 5 false false false sampleRoot [sampleElement])
        { x := 0, y := 0 }) SelectionMarkMode.REMOVE).selectionStarted = true
    ∧ ∀ e ∈ (onMove (setSelectionMarkMode (startSelection (initialState
        SelectionMode.PARTIAL_COVER SelectionMarkMode.ADD 5 false false false sampleRoot
        [sampleElement]) { x := 0, y := 0 }) SelectionMarkMode.REMOVE)
        { x := 50, y := 50 }).selectableElements,
        ((setSelectionMarkMode (startSelection (initialState SelectionMode.PARTIAL_COVER
          SelectionMarkMode.ADD 5 false false false sampleRoot [sampleElement])
          { x := 0, y := 0 }) SelectionMarkMode.REMOVE).selectionMarkMode
            = SelectionMarkMode.ADD → e.hasMarkRemoveSelectedClass = false)
        ∧ ((setSelectionMarkMode (startSelection (initialState SelectionMode.PARTIAL_COVER
          SelectionMarkMode.ADD 5 false false false sampleRoot [sampleElement])
          { x := 0, y := 0 }) SelectionMarkMode.REMOVE).selectionMarkMode
            = SelectionMarkMode.REMOVE → e.hasMarkAddSelectedClass = false) :=
  ⟨rfl, C10_no_stale_mark_class _ { x := 50, y := 50 } rfl⟩

/-!
Claim C6. The move handler only re-evaluates `isInClickRange` when
`isStillClick` is still `true`, so once a move puts the gesture out of click
range the flag is `false` and every later move keeps it `false`.
-/

/-- C6: during an active gesture, if the move to `p` takes the selection out
of click range, then after that move and ANY further sequence of moves —
including moves back within range — the gesture is no longer considered a
click. -/
theorem C6_isStillClick_monotone (s : Selector) (p : Point) (ps : List Point)
    (h : s.selectionStarted = true)
    (hout : isInClickRange (showSelectionRectangle
      { s with selectionRectangle := computeSelectionRectangle s p }) = false) :
    (ps.foldl onMove (onMove s p)).isStillClick = false := by
  apply moves_keep_isStillClick_false
  unfold onMove
  rw [if_pos h]
  dsimp only
  split
  · exact hout
  · next hcl => exact Bool.eq_false_iff.mpr hcl

/-- C6 witness: a drag from the origin out to (100,100) (far beyond the
threshold 5) followed by a move back to (1,1) still does not count as a
click. -/
theorem C6_witness :
    (startSelection (initialState SelectionMode.PARTIAL_COVER SelectionMarkMode.ADD 5 true
        false false sampleRoot [sampleElement]) { x := 0, y := 0 }).selectionStarted = true
    ∧ isInClickRange (showSelectionRectangle
        { startSelection (initialState SelectionMode.PARTIAL_COVER SelectionMarkMode.ADD 5
            true false false sampleRoot [sampleElement]) { x := 0, y := 0 } with
          selectionRectangle := computeSelectionRectangle (startSelection (initialState
            SelectionMode.PARTIAL_COVER SelectionMarkMode.ADD 5 true false false sampleRoot
            [sampleElement]) { x := 0, y := 0 }) { x := 100, y := 100 } }) = false
    ∧ ([({ x := 1, y := 1 } : Point)].foldl onMove (onMove (startSelection (initialState
        SelectionMode.PARTIAL_COVER SelectionMarkMode.ADD 5 true false false sampleRoot
        [sampleElement]) { x := 0, y := 0 }) { x := 100, y := 100 })).isStillClick = false :=
  ⟨rfl, by decide, C6_isStillClick_monotone _ { x := 100, y := 100 } [{ x := 1, y := 1 }]
    rfl (by decide)⟩

/-!
Claim C2. `onTouchCancel` only calls `cleanupSelection`, which hides and
resets the rectangle and removes all marks but — unlike `endSelection` —
never clears `selectionStarted`. The gesture state machine therefore does
NOT return to Idle on touch-cancel: a later move re-shows the rectangle and
a later up event invokes the selection callback.
-/

/-- Concrete gesture that receives a touch-cancel, used as the C2 failing
input: start at the origin, then `touchcancel`. -/
def cancelledGestureState : Selector :=
  onTouchCancel (startSelection (initialState SelectionMode.PARTIAL_COVER
    SelectionMarkMode.ADD 5 false false false sampleRoot [sampleElement])
    { x := 0, y := 0 })

/-- C2: evaluating the code at the failing input. After touch-cancel the
cleanup half of the claim holds (rectangle hidden and zeroed, marks removed,
no callback was invoked), but `selectionStarted` is still `true`, so a
subsequent move is processed as an active-gesture move (the rectangle is
shown again) and a subsequent up event invokes the selection callback — the
state machine did not return to Idle. -/
theorem C2_touchCancel_not_idle :
    cancelledGestureState.selectionRectVisible = false
    ∧ cancelledGestureState.selectionRectangle = { top := 0, left := 0, right := 0, bottom := 0 }
    ∧ (∀ e ∈ cancelledGestureState.selectableElements,
        e.hasMarkAddSelectedClass = false ∧ e.hasMarkRemoveSelectedClass = false)
    ∧ cancelledGestureState.selectionStarted = true
    ∧ (onMove cancelledGestureState { x := 50, y := 50 }).selectionRectVisible = true
    ∧ ((endSelection (onMove cancelledGestureState
        { x := 50, y := 50 })).2.selectedInvoked).isSome = true := by
  decide

/-!
Claim C5. The code's click candidacy test `isClicked` is `doOverlap` of the
element rectangle with the FINAL selection rectangle — it does not require
the element to contain the start point (or the release point), so the
claim's candidate criterion is wrong; the count-based dispatch (exactly one
candidate → click callback, otherwise selection callback) is what holds.
-/

/-- Selectable element overlapping the tiny drag rectangle of the C5
counterexample without containing its corner points. -/
def clickGestureElement : SelectableElement :=
  { rect := { top := 1, left := 1, right := 2, bottom := 2 }
    hasMarkAddSelectedClass := false
    hasMarkRemoveSelectedClass := false }

/-- End state of the C5 gesture: click callback configured, start at (0,0),
one move to (3,3) — within the threshold 5. -/
def clickGestureEnd : Selector :=
  onMove (startSelection (initialState SelectionMode.PARTIAL_COVER SelectionMarkMode.ADD 5
    true false false sampleRoot [clickGestureElement]) { x := 0, y := 0 })
    { x := 3, y := 3 }

/-- C5 counterexample: the gesture stays within the click threshold and the
only selectable element contains neither the start point (0,0) nor the
release point (3,3) — per the claim there is no candidate and the selection
callback should fire — yet the code invokes the click callback (and not the
selection callback), because the element overlaps the final selection
rectangle. -/
theorem C5_counterexample :
    clickGestureEnd.isStillClick = true
    ∧ clickGestureEnd.hasOnClickCallback = true
    ∧ containsPoint clickGestureElement.rect { x := 0, y := 0 } = false
    ∧ containsPoint clickGestureElement.rect { x := 3, y := 3 } = false
    ∧ (endSelection clickGestureEnd).2.clickInvoked.isSome = true
    ∧ (endSelection clickGestureEnd).2.selectedInvoked = none := by
  decide

/-- C5 (amended): when a click callback is configured and the gesture stayed
within the click threshold at every move step, the gesture end invokes the
click callback if and only if exactly one selectable element overlaps
(`isClicked`, i.e. `doOverlap`) the final selection rectangle, and then the
selection callback is not invoked; with zero or several such elements the
selection callback is invoked instead, with the elements matched by the
configured policy and the current mark mode, and the click callback is
not. -/
theorem C5_click_dispatch (s : Selector) (h1 : s.selectionStarted = true)
    (h2 : s.hasOnClickCallback = true) (h3 : s.isStillClick = true) :
    ((endSelection s).2.clickInvoked.isSome = true ↔
      (s.selectableElements.filter (fun e => isClicked s e)).length = 1)
    ∧ ((s.selectableElements.filter (fun e => isClicked s e)).length = 1 →
        (endSelection s).2.selectedInvoked = none)
    ∧ ((s.selectableElements.filter (fun e => isClicked s e)).length ≠ 1 →
        (endSelection s).2.clickInvoked = none
        ∧ (endSelection s).2.selectedInvoked =
          some (s.selectableElements.filter (fun e => isSelectedBySelectionRectangle s e),
            s.selectionMarkMode)) := by
  have hend : (endSelection s).2 = handleSelected { s with selectionStarted := false } := by
    unfold endSelection
    rw [if_pos h1]
  rw [hend]
  unfold handleSelected
  dsimp only [getSelectableElements, isClicked, isSelectedBySelectionRectangle]
  rw [h2, h3]
  rw [if_pos (show (true && true) = true from rfl)]
  by_cases hlen : (s.selectableElements.filter
      (fun e => doOverlap s.selectionRectangle e.rect)).length = 1
  · rw [if_pos hlen]
    refine ⟨⟨fun _ => hlen, fun _ => ?_⟩, fun _ => rfl, fun hne => absurd hlen hne⟩
    obtain ⟨a, ha⟩ := List.length_eq_one.mp hlen
    rw [ha]
    rfl
  · rw [if_neg hlen]
    exact ⟨iff_of_false (by simp) hlen, fun hc => absurd hc hlen, fun _ => ⟨rfl, rfl⟩⟩

/-- C5 witness: the amended dispatch applied at the concrete gesture end
state of the counterexample (one overlapping element — click fires). -/
theorem C5_witness :
    clickGestureEnd.selectionStarted = true
    ∧ clickGestureEnd.hasOnClickCallback = true
    ∧ clickGestureEnd.isStillClick = true
    ∧ (((endSelection clickGestureEnd).2.clickInvoked.isSome = true ↔
        (clickGestureEnd.selectableElements.filter
          (fun e => isClicked clickGestureEnd e)).length = 1)
      ∧ ((clickGestureEnd.selectableElements.filter
          (fun e => isClicked clickGestureEnd e)).length = 1 →
          (endSelection clickGestureEnd).2.selectedInvoked = none)
      ∧ ((clickGestureEnd.selectableElements.filter
          (fun e => isClicked clickGestureEnd e)).length ≠ 1 →
          (endSelection clickGestureEnd).2.clickInvoked = none
          ∧ (endSelection clickGestureEnd).2.selectedInvoked =
            some (clickGestureEnd.selectableElements.filter
              (fun e => isSelectedBySelectionRectangle clickGestureEnd e),
              clickGestureEnd.selectionMarkMode))) :=
  ⟨by decide, by decide, by decide,
    C5_click_dispatch clickGestureEnd (by decide) (by decide) (by decide)⟩

/-!
Claim C7. The move handler clamps the move point into the bounding root's
ranges, but `startSelection` never clamps the start point, so swapping the
roles of the two points changes the result whenever one of them lies
outside the root. For points inside the root the construction is symmetric.
-/

/-- C7 counterexample: with bounding root 0..10, starting inside at (5,5)
and moving to (20,5) clamps the move to x = 10, while starting at (20,5)
and moving to (5,5) keeps the unclamped start x = 20 as the right edge —
the two gestures produce different selection rectangles. -/
theorem C7_counterexample :
    (onMove (startSelection (initialState SelectionMode.PARTIAL_COVER SelectionMarkMode.ADD
        5 false false false { top := 0, left := 0, right := 10, bottom := 10 } [])
        { x := 5, y := 5 }) { x := 20, y := 5 }).selectionRectangle
      ≠ (onMove (startSelection (initialState SelectionMode.PARTIAL_COVER SelectionMarkMode.ADD
        5 false false false { top := 0, left := 0, right := 10, bottom := 10 } [])
        { x := 20, y := 5 }) { x := 5, y := 5 }).selectionRectangle := by
  decide

/-- The clamp is the identity on values inside the range. -/
lemma limitToRange_eq_self (lo hi v : ℤ) (h1 : lo ≤ v) (h2 : v ≤ hi) :
    limitToRange lo hi v = v := by
  unfold limitToRange
  split_ifs with ha hb
  · omega
  · omega
  · rfl

/-- C7 (amended): for any two points that both lie within the bounding
root's horizontal and vertical ranges (so that clamping is the identity), a
gesture from `p1` to `p2` produces the same selection rectangle as a
gesture from `p2` to `p1`. -/
theorem C7_gesture_symmetry (s : Selector) (p1 p2 : Point)
    (h1x : s.selectableRootRect.left ≤ p1.x) (h1x2 : p1.x ≤ s.selectableRootRect.right)
    (h1y : s.selectableRootRect.top ≤ p1.y) (h1y2 : p1.y ≤ s.selectableRootRect.bottom)
    (h2x : s.selectableRootRect.left ≤ p2.x) (h2x2 : p2.x ≤ s.selectableRootRect.right)
    (h2y : s.selectableRootRect.top ≤ p2.y) (h2y2 : p2.y ≤ s.selectableRootRect.bottom) :
    (onMove (startSelection s p1) p2).selectionRectangle
      = (onMove (startSelection s p2) p1).selectionRectangle := by
  rw [onMove_selectionRectangle _ _ rfl, onMove_selectionRectangle _ _ rfl]
  unfold computeSelectionRectangle
  dsimp only [startSelection]
  rw [limitToRange_eq_self _ _ _ h2x h2x2, limitToRange_eq_self _ _ _ h2y h2y2,
    limitToRange_eq_self _ _ _ h1x h1x2, limitToRange_eq_self _ _ _ h1y h1y2]
  simp only [SelectionRectangle.mk.injEq]
  refine ⟨?_, ?_, ?_, ?_⟩ <;> split_ifs <;> omega

/-- C7 witness: symmetry at two concrete points inside the sample root. -/
theorem C7_witness :
    (onMove (startSelection (initialState SelectionMode.PARTIAL_COVER SelectionMarkMode.ADD
        5 false false false sampleRoot []) { x := 10, y := 10 })
        { x := 50, y := 60 }).selectionRectangle
      = (onMove (startSelection (initialState SelectionMode.PARTIAL_COVER SelectionMarkMode.ADD
        5 false false false sampleRoot []) { x := 50, y := 60 })
        { x := 10, y := 10 }).selectionRectangle :=
  C7_gesture_symmetry _ { x := 10, y := 10 } { x := 50, y := 60 }
    (by decide) (by decide) (by decide) (by decide)
    (by decide) (by decide) (by decide) (by decide)

/-!
Claim C8. Every operation that writes `selectionRectangle` establishes
`left ≤ right` and `top ≤ bottom`: the initial and reset rectangles are
zero, `startSelection` writes a point rectangle, and
`computeSelectionRectangle` orders each axis explicitly.
-/

/-- The rectangle invariant of the spec: the stored selection rectangle is
never inverted on either axis. -/
def rectangleWellFormed (r : SelectionRectangle) : Prop :=
  r.left ≤ r.right ∧ r.top ≤ r.bottom

/-- A recomputed selection rectangle is always well formed. -/
lemma computeSelectionRectangle_wf (s : Selector) (p : Point) :
    rectangleWellFormed (computeSelectionRectangle s p) := by
  unfold computeSelectionRectangle rectangleWellFormed
  dsimp only
  constructor <;> split_ifs <;> omega

/-- Every gesture event preserves well-formedness of the stored selection
rectangle. -/
lemma step_preserves_wf (s : Selector) (e : GestureEvent)
    (h : rectangleWellFormed s.selectionRectangle) :
    rectangleWellFormed (step s e).selectionRectangle := by
  cases e with
  | start p => exact ⟨le_refl _, le_refl _⟩
  | move p =>
    dsimp only [step]
    by_cases hs : s.selectionStarted = true
    · rw [onMove_selectionRectangle s p hs]
      exact computeSelectionRectangle_wf s p
    · rw [onMove, if_neg hs]
      exact h
  | release =>
    dsimp only [step]
    by_cases hs : s.selectionStarted = true
    · have hcl : (endSelection s).1 = cleanupSelection { s with selectionStarted := false } := by
        unfold endSelection
        rw [if_pos hs]
      rw [hcl]
      exact ⟨le_refl _, le_refl _⟩
    · have hcl : (endSelection s).1 = s := by
        unfold endSelection
        rw [if_neg hs]
      rw [hcl]
      exact h
  | cancel => exact ⟨le_refl _, le_refl _⟩
  | setMarkMode m => exact h

/-- Any event sequence from a state with a well-formed rectangle keeps the
rectangle well formed. -/
lemma run_preserves_wf (events : List GestureEvent) (s : Selector)
    (h : rectangleWellFormed s.selectionRectangle) :
    rectangleWellFormed (run s events).selectionRectangle := by
  induction events generalizing s with
  | nil => exact h
  | cons e es ih => exact ih (step s e) (step_preserves_wf s e h)

/-- C8: starting from a freshly constructed instance (zero rectangle), after
any sequence of gesture events the stored selection rectangle satisfies
`left ≤ right` and `top ≤ bottom`. -/
theorem C8_rectangle_invariant (selectionMode : SelectionMode)
    (selectionMarkMode : SelectionMarkMode) (clickThreshold : ℤ)
    (hasOnClickCallback onSelectedCallbackRaises onClickCallbackRaises : Bool)
    (selectableRootRect : SelectionRectangle)
    (selectableElements : List SelectableElement) (events : List GestureEvent) :
    rectangleWellFormed (run (initialState selectionMode selectionMarkMode clickThreshold
      hasOnClickCallback onSelectedCallbackRaises onClickCallbackRaises selectableRootRect
      selectableElements) events).selectionRectangle :=
  run_preserves_wf events _ ⟨le_refl 0, le_refl 0⟩

end SelectorModel
